import Mathlib

/-!
Shallow embedding of the Avahi bridge layer of `zeroconf-rs`
(`src/zeroconf/src/avahi/{poll.rs, avahi_util.rs, client.rs}`).

Native FFI calls are modelled by passing their observable behaviour as
explicit parameters (e.g. the integer status a native routine would
return, or the native error-string table `Int → String`), and by
recording whether / with which argument a native routine was invoked.
State held behind the `RwLock<bool>` in `ManagedAvahiSimplePoll` is
modelled as an explicit `PollState` record threaded through the
operations; the claims under study are sequential properties of one
handle, so the lock itself reduces to plain state passing.
-/

namespace Zeroconf

/-- Modelled from the spec: the crate's `error::Error` type is not among the
source files; the spec describes a closed set of kinds, at minimum a
native-failure kind holding the native numeric code plus a resolved message
(`Error::MdnsSystemError { code, message }`, visible in `avahi_util.rs`), and
a bridge-detected illegal-state / plain-message kind produced by
`Error::from(&str)`. -/
inductive Error where
  | mdnsSystemError (code : Int) (message : String)
  | fromMessage (message : String)
deriving DecidableEq

/-- Embeds `std::time::Duration`: seconds plus a nanosecond part.
(The Rust invariants `nanos < 10^9`, `secs < 2^64` are not needed by any
claim; using all of `Nat` only enlarges the input space.) -/
structure Duration where
  secs : Nat
  nanos : Nat
deriving DecidableEq

/-- Embeds `Duration::as_millis()`: whole milliseconds (`u128`, here `Nat`). -/
def Duration.as_millis (d : Duration) : Nat :=
  d.secs * 1000 + d.nanos / 1000000

/-- Embeds `u128::try_into::<i32>()`: succeeds exactly when the value fits in
an `i32` (the source value is unsigned, so only the upper bound can fail). -/
def tryIntoI32 (n : Nat) : Option Int :=
  if n ≤ 2147483647 then some (n : Int) else none

/-- The `finished` flag of `ManagedAvahiSimplePoll` (the contents of the
`RwLock<bool>`), `false` at construction. -/
structure PollState where
  finished : Bool
deriving DecidableEq

namespace ManagedAvahiSimplePoll

/-- Embeds `ManagedAvahiSimplePoll::new()`: `avahi_simple_poll_new()` is
modelled by whether it returned a null pointer; on success the handle starts
with `finished := RwLock::new(false)`. -/
def new (pollIsNull : Bool) : Except Error PollState :=
  if pollIsNull then
    .error (.fromMessage "could not initialize AvahiSimplePoll")
  else
    .ok { finished := false }

/-- Embeds `has_finished(&self)`: reads the flag. -/
def has_finished (st : PollState) : Bool :=
  st.finished

/-- Embeds `mark_finished(&self)`: writes `true` into the flag. -/
def mark_finished (_st : PollState) : PollState :=
  { finished := true }

/-- The `sleep_time` computation at the top of `iterate`:
`timeout.as_millis().try_into().unwrap_or(i32::MAX)`. -/
def sleep_time (timeout : Duration) : Int :=
  (tryIntoI32 timeout.as_millis).getD 2147483647

instance exceptDecEq {ε α : Type} [DecidableEq ε] [DecidableEq α] :
    DecidableEq (Except ε α) := fun a b =>
  match a, b with
  | .ok x, .ok y =>
    if h : x = y then .isTrue (by rw [h]) else .isFalse (by simp [h])
  | .error x, .error y =>
    if h : x = y then .isTrue (by rw [h]) else .isFalse (by simp [h])
  | .ok _, .error _ => .isFalse (by simp)
  | .error _, .ok _ => .isFalse (by simp)

/-- Outcome of one `iterate` call: the handle state afterwards, the argument
`avahi_simple_poll_iterate` was invoked with (or `none` when the native
routine was not invoked at all), and the returned `Result`. -/
structure IterateResult where
  state : PollState
  nativeCall : Option Int
  result : Except Error Unit
deriving DecidableEq

/-- Embeds `ManagedAvahiSimplePoll::iterate(&self, timeout)`.  The native
routine `avahi_simple_poll_iterate(self.native, sleep_time)` is modelled by
the function `native : Int → Int` from the passed `sleep_time` to the status
it returns; the Rust `match` on `{0, 1, -1, _}` is written as the equivalent
chain of equality tests. -/
def iterate (native : Int → Int) (st : PollState) (timeout : Duration) :
    IterateResult :=
  let s := sleep_time timeout
  if has_finished st then
    { state := st
      nativeCall := none
      result := .error (.fromMessage "avahi_simple_poll_iterate(..) already finished") }
  else
    let r := native s
    if r = 0 then
      { state := st, nativeCall := some s, result := .ok () }
    else if r = 1 then
      { state := mark_finished st
        nativeCall := some s
        result := .error (.fromMessage "avahi_simple_poll_iterate(..) disconnected") }
    else if r = -1 then
      { state := mark_finished st
        nativeCall := some s
        result := .error (.fromMessage "avahi_simple_poll_iterate(..) threw an error result") }
    else
      { state := mark_finished st
        nativeCall := some s
        result := .error (.fromMessage "avahi_simple_poll_iterate(..) returned an unknown result") }

/-- Embeds `quit(&self)`: calls `avahi_simple_poll_quit(self.native)` and
touches no host-side state; the handle state is returned unchanged. -/
def quit (st : PollState) : PollState :=
  st

/-- A sequence of `iterate` calls on one handle, threading the state. -/
def iterateTrace (native : Int → Int) (st : PollState) :
    List Duration → List IterateResult
  | [] => []
  | t :: ts =>
    let r := iterate native st t
    r :: iterateTrace native r.state ts

/-- How many of the recorded `iterate` outcomes actually invoked the native
iterate routine. -/
def nativeCallCount (rs : List IterateResult) : Nat :=
  (rs.filter (fun r => r.nativeCall.isSome)).length

end ManagedAvahiSimplePoll

/-! ## avahi_util.rs -/

/-- Embeds Rust's `{:?}` (Debug) escaping of one character inside a string
literal, for the escapes that can occur in this crate's error strings:
quote, backslash and the common control characters. -/
def escapeDebugChar (c : Char) : String :=
  if c = '"' then "\\\""
  else if c = '\\' then "\\\\"
  else if c = '\n' then "\\n"
  else if c = '\t' then "\\t"
  else if c = '\r' then "\\r"
  else String.singleton c

/-- Embeds Rust's `format!("{:?}", s)` for a string slice: the contents are
escaped character-wise and wrapped in double quotes. -/
def rustDebugStr (s : String) : String :=
  "\"" ++ String.join (s.data.map escapeDebugChar) ++ "\""

/-- Embeds `avahi_util::sys_exec(func, message)`.  The native closure `func`
is modelled by the status `err` it returns, and the native string table read
by `get_error` is the parameter `get_error : Int → String`.  The error
message is built exactly as by
`format!("{}: (code: {}, message:{:?})", message, err, get_error(err))`. -/
def sys_exec (get_error : Int → String) (err : Int) (message : String) :
    Except Error Unit :=
  if err < 0 then
    .error (.mdnsSystemError err
      (message ++ ": (code: " ++ toString err ++ ", message:"
        ++ rustDebugStr (get_error err) ++ ")"))
  else
    .ok ()

/-- Embeds `ManagedAvahiSimplePoll::start_loop(&self)`: delegates to
`sys_exec(|| avahi_simple_poll_loop(self.native), "could not start
AvahiSimplePoll")` and performs no other action, so the handle state is
returned unchanged alongside the `Result`. -/
def ManagedAvahiSimplePoll.start_loop (get_error : Int → String)
    (st : PollState) (nativeLoopResult : Int) :
    PollState × Except Error Unit :=
  (st, sys_exec get_error nativeLoopResult "could not start AvahiSimplePoll")

/-- Embeds `NetworkInterface` (defined outside the excerpt, but fully
determined by its two constructors used in `avahi_util.rs`): either
unspecified or a concrete `u32` interface index.  The `u32` payload is a
`Nat`; the cast functions below spell out the `as`-cast arithmetic. -/
inductive NetworkInterface where
  | Unspec : NetworkInterface
  | AtIndex (i : Nat) : NetworkInterface
deriving DecidableEq

/-- The Avahi binding constant `AVAHI_IF_UNSPEC` (value `-1`). -/
def AVAHI_IF_UNSPEC : Int := -1

/-- Embeds Rust's `i as i32` for a `u32` value `i` (two's-complement
wrap-around). -/
def u32_as_i32 (i : Nat) : Int :=
  if i % 4294967296 < 2147483648 then (i % 4294967296 : Nat)
  else (i % 4294967296 : Nat) - 4294967296

/-- Embeds Rust's `index as u32` for an `i32` value (two's-complement
wrap-around). -/
def i32_as_u32 (index : Int) : Nat :=
  (index % 4294967296).toNat

/-- Embeds `avahi_util::interface_index`. -/
def interface_index (interface : NetworkInterface) : Int :=
  match interface with
  | .Unspec => AVAHI_IF_UNSPEC
  | .AtIndex i => u32_as_i32 i

/-- Embeds `avahi_util::interface_from_index`. -/
def interface_from_index (index : Int) : NetworkInterface :=
  if index = AVAHI_IF_UNSPEC then .Unspec
  else .AtIndex (i32_as_u32 index)

/-- Embeds the `ServiceType` record as consumed by the formatting helpers in
`avahi_util.rs`: accessors `name()`, `protocol()` and `sub_types()`. -/
structure ServiceType where
  name : String
  protocol : String
  sub_types : List String
deriving DecidableEq

/-- Embeds Rust's `s.starts_with('_')` (a single-`char` pattern: tests
whether the first character of the string is an underscore). -/
def startsWithUnderscore (s : String) : Bool :=
  match s.data with
  | [] => false
  | c :: _ => c = '_'

/-- Embeds `avahi_util::format_sub_type(sub_type, kind)`:
`format!("{}{}._sub.{}", prefix_underscore, sub_type, kind)` where the first
piece is `"_"` exactly when `sub_type` does not already start with `'_'`. -/
def format_sub_type (sub_type : String) (kind : String) : String :=
  (if startsWithUnderscore sub_type then "" else "_")
    ++ sub_type ++ "._sub." ++ kind

/-- Embeds `avahi_util::format_service_type`:
`format!("_{}._{}", service_type.name(), service_type.protocol())`. -/
def format_service_type (service_type : ServiceType) : String :=
  "_" ++ service_type.name ++ "._" ++ service_type.protocol

/-- Embeds `avahi_util::format_browser_type`: the plain service type when
there are no sub-types, otherwise `format_sub_type` of the first sub-type
(the `len() > 1` branch only emits a log warning, which has no value-level
effect). -/
def format_browser_type (service_type : ServiceType) : String :=
  let kind := format_service_type service_type
  match service_type.sub_types with
  | [] => kind
  | s :: _ => format_sub_type s kind

/-! ## client.rs -/

/-- Embeds `ManagedAvahiClient::new(params)`.  The native constructor
`avahi_client_new(..., &mut err)` is modelled by its two observable effects:
the handle it returns (`none` for a null pointer, `some h` otherwise, with
`h` an abstract identifier for the native client resource) and the value
`errOut` it leaves in the `c_int` out-parameter.  On success the wrapper
retains the handle (together with the shared poll reference, irrelevant
here); on a null handle it builds `Error::MdnsSystemError` from `errOut` and
`get_error(errOut)` and retains nothing. -/
def ManagedAvahiClient.new (get_error : Int → String)
    (nativeClient : Option Nat) (errOut : Int) : Except Error Nat :=
  match nativeClient with
  | none => .error (.mdnsSystemError errOut (get_error errOut))
  | some h => .ok h

/-! ## Helper lemmas -/

open ManagedAvahiSimplePoll

theorem iterate_of_finished (native : Int → Int) (st : PollState)
    (t : Duration) (h : st.finished = true) :
    iterate native st t =
      { state := st, nativeCall := none
        result := .error (.fromMessage "avahi_simple_poll_iterate(..) already finished") } := by
  simp [iterate, has_finished, h]

theorem iterateTrace_of_finished (native : Int → Int) (st : PollState)
    (ts : List Duration) (h : st.finished = true) :
    ∀ r ∈ iterateTrace native st ts,
      r = { state := st, nativeCall := none
            result := .error (.fromMessage "avahi_simple_poll_iterate(..) already finished") } := by
  induction ts with
  | nil => simp [iterateTrace]
  | cons t ts ih =>
    intro r hr
    rw [iterateTrace, iterate_of_finished native st t h] at hr
    rcases List.mem_cons.mp hr with hr | hr
    · exact hr
    · exact ih r hr

/-! ## Claim theorems -/

/-- C1: once an `iterate` call on a not-yet-finished handle observes any
native result other than success (disconnect `1`, error `-1`, or an unknown
code) and thereby sets the terminal-state flag, every subsequent `iterate`
call on that handle returns the bridge's illegal-state error, does not
invoke the native iterate routine, and the native call count over the whole
subsequent trace is zero. -/
theorem iterate_terminal_state_absorbing (native : Int → Int) (st : PollState)
    (t : Duration) (ts : List Duration)
    (hst : st.finished = false)
    (hr : native (sleep_time t) ≠ 0) :
    (iterate native st t).state.finished = true ∧
    (∀ r ∈ iterateTrace native (iterate native st t).state ts,
      r.nativeCall = none ∧
      r.result = .error (.fromMessage "avahi_simple_poll_iterate(..) already finished") ∧
      r.state.finished = true) ∧
    nativeCallCount (iterateTrace native (iterate native st t).state ts) = 0 := by
  have hfin : (iterate native st t).state.finished = true := by
    simp [iterate, has_finished, hst]
    split_ifs with h0 h1 hm
    · exact absurd h0 hr
    · rfl
    · rfl
    · rfl
  refine ⟨hfin, ?_, ?_⟩
  · intro r hmem
    have := iterateTrace_of_finished native _ ts hfin r hmem
    subst this
    exact ⟨rfl, rfl, hfin⟩
  · have hnil : (iterateTrace native (iterate native st t).state ts).filter
        (fun r => r.nativeCall.isSome) = [] := by
      rw [List.filter_eq_nil_iff]
      intro r hmem
      have := iterateTrace_of_finished native _ ts hfin r hmem
      subst this
      simp
    simp [nativeCallCount, hnil]

/-- Witness for C1 at a concrete handle and trace. -/
theorem iterate_terminal_state_absorbing_witness :
    (iterate (fun _ => 1) ⟨false⟩ ⟨0, 0⟩).state.finished = true :=
  (iterate_terminal_state_absorbing (fun _ => 1) ⟨false⟩ ⟨0, 0⟩ [⟨0, 0⟩]
    rfl (by decide)).1

/-- C2: on a not-yet-finished handle, `iterate` maps the native result as:
`0` returns `Ok(())` with the flag left `false` (the state is unchanged);
`1` sets the flag and returns the "disconnected" error; `-1` sets the flag
and returns the "threw an error result" error; any other code sets the flag
and returns the "returned an unknown result" error. -/
theorem iterate_result_mapping (native : Int → Int) (st : PollState)
    (t : Duration) (hst : st.finished = false) :
    (native (sleep_time t) = 0 →
      iterate native st t = ⟨st, some (sleep_time t), .ok ()⟩) ∧
    (native (sleep_time t) = 1 →
      iterate native st t = ⟨⟨true⟩, some (sleep_time t),
        .error (.fromMessage "avahi_simple_poll_iterate(..) disconnected")⟩) ∧
    (native (sleep_time t) = -1 →
      iterate native st t = ⟨⟨true⟩, some (sleep_time t),
        .error (.fromMessage "avahi_simple_poll_iterate(..) threw an error result")⟩) ∧
    (native (sleep_time t) ≠ 0 → native (sleep_time t) ≠ 1 →
      native (sleep_time t) ≠ -1 →
      iterate native st t = ⟨⟨true⟩, some (sleep_time t),
        .error (.fromMessage "avahi_simple_poll_iterate(..) returned an unknown result")⟩) := by
  refine ⟨fun h0 => ?_, fun h1 => ?_, fun hm => ?_, fun h0 h1 hm => ?_⟩
  · simp [iterate, has_finished, mark_finished, hst, h0]
  · simp [iterate, has_finished, mark_finished, hst, h1]
  · simp [iterate, has_finished, mark_finished, hst, hm]
  · simp [iterate, has_finished, mark_finished, hst, h0, h1, hm]

/-- Witness for C2 at a concrete handle (native result `1`). -/
theorem iterate_result_mapping_witness :
    iterate (fun _ => 1) ⟨false⟩ ⟨0, 0⟩ = ⟨⟨true⟩, some (sleep_time ⟨0, 0⟩),
      .error (.fromMessage "avahi_simple_poll_iterate(..) disconnected")⟩ :=
  (iterate_result_mapping (fun _ => 1) ⟨false⟩ ⟨0, 0⟩ rfl).2.1 rfl

/-- C3 counterexample: `start_loop` (the implementation of `run_blocking`)
observing the negative native result `-1` does return a native-failure
error, but the terminal-state flag remains `false` — contradicting the
claim that the flag is set to `true` in this situation (`start_loop` never
calls `mark_finished`). -/
theorem start_loop_negative_leaves_flag_false :
    (start_loop (fun _ => "Operation failed") ⟨false⟩ (-1)).2 =
      .error (.mdnsSystemError (-1)
        "could not start AvahiSimplePoll: (code: -1, message:\"Operation failed\")") ∧
    (start_loop (fun _ => "Operation failed") ⟨false⟩ (-1)).1.finished = false := by
  decide

/-- C3 (amended): the Active→Finished transition happens only in `iterate`;
`start_loop` (run_blocking) observing a negative native result returns the
native-failure error but leaves the terminal-state flag unchanged, `quit`
(request_quit) and a successful `new` (initialize) never set the flag, and
`iterate` on an active handle sets the flag exactly when the native result
is non-zero. -/
theorem finished_transition_only_in_iterate (g : Int → String) (st : PollState)
    (r : Int) (native : Int → Int) (t : Duration) (hr : r < 0) :
    (start_loop g st r).1 = st ∧
    (start_loop g st r).2 = .error (.mdnsSystemError r
      ("could not start AvahiSimplePoll: (code: " ++ toString r
        ++ ", message:" ++ rustDebugStr (g r) ++ ")")) ∧
    quit st = st ∧
    new false = .ok ⟨false⟩ ∧
    (st.finished = false →
      ((iterate native st t).state.finished = true ↔
        native (sleep_time t) ≠ 0)) := by
  refine ⟨rfl, ?_, rfl, rfl, fun hst => ?_⟩
  · simp [start_loop, sys_exec, hr]
  · constructor
    · intro hfin h0
      simp [iterate, has_finished, hst, h0] at hfin
    · intro h0
      simp [iterate, has_finished, hst]
      split_ifs with hz h1 hm
      · exact absurd hz h0
      · rfl
      · rfl
      · rfl

/-- Witness for the amended C3 at a concrete handle and native result. -/
theorem finished_transition_only_in_iterate_witness :
    (start_loop (fun _ => "Operation failed") ⟨false⟩ (-1)).1 = ⟨false⟩ :=
  (finished_transition_only_in_iterate (fun _ => "Operation failed") ⟨false⟩
    (-1) (fun _ => 0) ⟨0, 0⟩ (by decide)).1

/-- C4: `sys_exec` returns `Ok(())` exactly for non-negative native status
codes; for every negative code it returns `Error::MdnsSystemError` carrying
exactly that code and a message embedding the context message, the raw code
and the native library's resolved string for that code. -/
theorem sys_exec_code_sign_mapping (get_error : Int → String)
    (message : String) (code : Int) :
    (sys_exec get_error code message = .ok () ↔ 0 ≤ code) ∧
    (code < 0 → sys_exec get_error code message =
      .error (.mdnsSystemError code
        (message ++ ": (code: " ++ toString code ++ ", message:"
          ++ rustDebugStr (get_error code) ++ ")"))) := by
  constructor
  · unfold sys_exec
    split_ifs with h
    · simp
      omega
    · simp
      omega
  · intro h
    simp [sys_exec, h]

/-- Witness for C4: the concrete case from the crate's own test
`sys_exec_returns_error_for_failure`. -/
theorem sys_exec_code_sign_mapping_witness :
    sys_exec (fun _ => "Operation failed") (-1) "uh oh spaghetti-o" =
      .error (.mdnsSystemError (-1)
        "uh oh spaghetti-o: (code: -1, message:\"Operation failed\")") := by
  have h := (sys_exec_code_sign_mapping (fun _ => "Operation failed")
    "uh oh spaghetti-o" (-1)).2 (by decide)
  exact h.trans (by decide)

/-- C5: converting the `iterate` timeout to whole milliseconds is total and
never fails: the produced `sleep_time` always lies in the `i32` range, it
equals the millisecond count whenever that count fits, it is exactly
`i32::MAX` whenever the count overflows `i32`, and on a not-yet-finished
handle this `sleep_time` is exactly the value passed to the native iterate
routine. -/
theorem iterate_timeout_clamped (native : Int → Int) (st : PollState)
    (d : Duration) (hst : st.finished = false) :
    0 ≤ sleep_time d ∧ sleep_time d ≤ 2147483647 ∧
    (d.as_millis ≤ 2147483647 → sleep_time d = d.as_millis) ∧
    (2147483647 < d.as_millis → sleep_time d = 2147483647) ∧
    (iterate native st d).nativeCall = some (sleep_time d) := by
  refine ⟨?_, ?_, fun hle => ?_, fun hlt => ?_, ?_⟩
  · unfold sleep_time tryIntoI32
    split_ifs <;> simp
  · unfold sleep_time tryIntoI32
    split_ifs with h
    · simpa using h
    · simp
  · simp [sleep_time, tryIntoI32, hle]
  · simp [sleep_time, tryIntoI32, Nat.not_le.mpr hlt]
  · simp [iterate, has_finished, hst]
    split_ifs <;> rfl

/-- Witness for C5 at a duration whose millisecond count overflows `i32`. -/
theorem iterate_timeout_clamped_witness :
    sleep_time ⟨3000000000, 0⟩ = 2147483647 :=
  (iterate_timeout_clamped (fun _ => 0) ⟨false⟩ ⟨3000000000, 0⟩ rfl).2.2.2.1
    (by decide)

/-- C6: `quit` (request_quit) leaves the handle state — in particular the
terminal-state flag — unchanged, whatever its value (Active or Finished). -/
theorem quit_preserves_finished_flag (st : PollState) :
    quit st = st ∧ (quit st).finished = st.finished :=
  ⟨rfl, rfl⟩

/-- C7: when the native client constructor yields a null handle,
`ManagedAvahiClient::new` returns `Error::MdnsSystemError` whose code is
exactly the out-parameter value the constructor wrote and whose message is
that code's translation, and no client handle is constructed (the result is
never `Ok`). -/
theorem client_new_null_error_translation (get_error : Int → String)
    (errOut : Int) :
    ManagedAvahiClient.new get_error none errOut =
      .error (.mdnsSystemError errOut (get_error errOut)) ∧
    (ManagedAvahiClient.new get_error none errOut).isOk = false :=
  ⟨rfl, rfl⟩

/-- C8: `format_service_type` is exactly `"_" ++ name ++ "._" ++ protocol`;
`format_browser_type` returns the same string when the sub-type list is
empty and otherwise the sub-type formatting of the first sub-type only,
matching the crate's own test vectors. -/
theorem format_service_and_browser_type (n p s0 : String)
    (subs rest : List String) :
    format_service_type ⟨n, p, subs⟩ = "_" ++ n ++ "._" ++ p ∧
    format_browser_type ⟨n, p, []⟩ = "_" ++ n ++ "._" ++ p ∧
    format_browser_type ⟨n, p, s0 :: rest⟩ =
      format_sub_type s0 ("_" ++ n ++ "._" ++ p) ∧
    format_browser_type ⟨"http", "tcp", []⟩ = "_http._tcp" ∧
    format_browser_type ⟨"http", "tcp", ["printer1", "printer2"]⟩ =
      "_printer1._sub._http._tcp" :=
  ⟨rfl, rfl, rfl, by decide, by decide⟩

theorem startsWithUnderscore_underscore_append (s : String) :
    startsWithUnderscore ("_" ++ s) = true := by
  have hdata : ("_" ++ s).data = '_' :: s.data := by
    rw [String.data_append]
    rfl
  simp [startsWithUnderscore, hdata]

/-- C9: `format_sub_type` is idempotent with respect to the leading
underscore — prepending `"_"` to a sub-type that does not already start
with `'_'` does not change the result — and every result consists of the
sub-type carrying exactly one (added or already present) underscore,
followed by `"._sub."` and the kind. -/
theorem format_sub_type_underscore_idempotent (s t k : String)
    (hs : startsWithUnderscore s = false) :
    format_sub_type s k = format_sub_type ("_" ++ s) k ∧
    (∃ u, format_sub_type t k = "_" ++ u ++ "._sub." ++ k ∧
      ((startsWithUnderscore t = true ∧ t = "_" ++ u) ∨
       (startsWithUnderscore t = false ∧ t = u))) ∧
    format_sub_type "foo" "_http._tcp" = "_foo._sub._http._tcp" ∧
    format_sub_type "_foo" "_http._tcp" = "_foo._sub._http._tcp" := by
  refine ⟨?_, ?_, by decide, by decide⟩
  · simp only [format_sub_type, hs, startsWithUnderscore_underscore_append]
    apply String.ext
    simp [String.data_append]
  · obtain ⟨data⟩ := t
    match data with
    | [] =>
      refine ⟨⟨[]⟩, ?_, .inr ⟨rfl, rfl⟩⟩
      apply String.ext
      simp [format_sub_type, startsWithUnderscore, String.data_append]
    | c :: cs =>
      by_cases hc : c = '_'
      · subst hc
        have hsw : startsWithUnderscore ⟨'_' :: cs⟩ = true := by
          simp [startsWithUnderscore]
        have heq : (⟨'_' :: cs⟩ : String) = "_" ++ ⟨cs⟩ := by
          apply String.ext
          rw [String.data_append]
          rfl
        refine ⟨⟨cs⟩, ?_, .inl ⟨hsw, heq⟩⟩
        simp only [format_sub_type, hsw]
        apply String.ext
        simp [String.data_append]
      · have hsw : startsWithUnderscore ⟨c :: cs⟩ = false := by
          simp [startsWithUnderscore, hc]
        refine ⟨⟨c :: cs⟩, ?_, .inr ⟨hsw, rfl⟩⟩
        simp only [format_sub_type, hsw]
        apply String.ext
        simp [String.data_append]

/-- Witness for C9 at concrete strings. -/
theorem format_sub_type_underscore_idempotent_witness :
    format_sub_type "foo" "_http._tcp" = format_sub_type "_foo" "_http._tcp" := by
  have h := (format_sub_type_underscore_idempotent "foo" "bar" "_http._tcp"
    (by decide)).1
  exact h.trans (by decide)

/-- C10: for every `i32` interface index `n`, converting to a
`NetworkInterface` and back yields `n` (the i32 → NetworkInterface → i32
round trip is the identity), while the opposite composition is not the
identity: `AtIndex 4294967295` (whose `as i32` cast equals
`AVAHI_IF_UNSPEC`) maps to `Unspec`, a different value. -/
theorem interface_index_round_trip (n : Int)
    (h1 : -2147483648 ≤ n) (h2 : n ≤ 2147483647) :
    interface_index (interface_from_index n) = n ∧
    interface_from_index (interface_index (.AtIndex 4294967295)) = .Unspec ∧
    interface_from_index (interface_index (.AtIndex 4294967295)) ≠
      .AtIndex 4294967295 := by
  refine ⟨?_, by decide, by decide⟩
  by_cases hn : n = AVAHI_IF_UNSPEC
  · simp [interface_from_index, interface_index, hn]
  · simp only [interface_from_index, if_neg hn, interface_index,
      u32_as_i32, i32_as_u32]
    simp only [AVAHI_IF_UNSPEC] at hn
    split_ifs <;> omega

/-- Witness for C10 at a concrete index. -/
theorem interface_index_round_trip_witness :
    interface_index (interface_from_index 7) = 7 :=
  (interface_index_round_trip 7 (by decide) (by decide)).1

end Zeroconf
